import Mathlib

/-!
Verification of the demonstration corpus (Fluent-Python-2nd-edition snippets).

Shallow embedding conventions:
* Python lists become Lean `List`s; iteration order is list order.
* Python machine integers become `Nat`/`Int`; `Decimal` amounts become `Rat`
  (the `Decimal` operations used by the order/discount demos — addition,
  subtraction, multiplication of small exact decimals — are exact, so `Rat`
  agrees with them).
* Fallible operations return `Except PyErr`; `PyErr` names the Python
  exception class raised, so "raises LookupError and no other error kind"
  is an equation between `Except` values.
* Randomness (`random.shuffle`, `random.randrange`) is modelled by an explicit
  parameter: a shuffle function assumed to permute its input, or the drawn
  position passed as an argument.
* Object identity (needed only by the bus-aliasing demo) is modelled by a tiny
  heap of lists addressed by allocation index.
-/

/-- The Python exception kinds the embedded snippets can raise. -/
inductive PyErr where
  | valueError (msg : String)
  | lookupError (msg : String)
  | attributeError (msg : String)
  | typeError (msg : String)
  | recursionError
deriving DecidableEq, Repr

/-! ## Card deck (`1.The Python Data Model.py`, lines 5-23 and 43-64) -/

/-- `Card = collections.namedtuple("Card", ["rank", "suit"])`. -/
structure Card where
  rank : String
  suit : String
deriving DecidableEq, Repr

namespace FrenchDeck

/-- `ranks = [str(n) for n in range(2, 11)] + list("JQKA")`. -/
def ranks : List String := (List.range' 2 9).map (fun n => toString n) ++ ["J", "Q", "K", "A"]

/-- `suits = "spades diamonds clubs hearts".split()`. -/
def suits : List String := ["spades", "diamonds", "clubs", "hearts"]

/-- `self._cards = [Card(rank, suit) for rank in self.ranks for suit in self.suits]`
(rank-major: outer loop over ranks, inner over suits). -/
def deck : List Card := ranks.flatMap (fun rank => suits.map (fun suit => ⟨rank, suit⟩))

end FrenchDeck

/-- `suit_values = dict(spades=3, hearts=2, diamonds=1, clubs=0)`, as the
association list the dict's items form. -/
def suit_values : List (String × Nat) :=
  [("spades", 3), ("hearts", 2), ("diamonds", 1), ("clubs", 0)]

/-- `spades_high(card)`: `rank_value = FrenchDeck.ranks.index(card.rank)` then
`rank_value * len(suit_values) + suit_values[card.suit]`. Every suit of a deck
card is a key of `suit_values`, so the lookup's fallback value is never
consulted on deck cards. -/
def spades_high (card : Card) : Nat :=
  FrenchDeck.ranks.indexOf card.rank * suit_values.length +
    ((suit_values.lookup card.suit).getD 0)

/-- Stable insertion of a card into an already key-sorted list: the new card
goes after existing cards of smaller-or-equal key, as Python's stable sort
keeps earlier elements of equal key first. -/
def insertByKey (key : Card → Nat) (c : Card) : List Card → List Card
  | [] => [c]
  | d :: rest => if key d ≤ key c then d :: insertByKey key c rest else c :: d :: rest

/-- `sorted(deck, key=spades_high)`: Python's `sorted` is a stable sort by the
key function; on the deck the keys are pairwise distinct, so any stable sort
computes the same list. Modelled as stable insertion sort. -/
def sortedByKey (key : Card → Nat) : List Card → List Card
  | [] => []
  | c :: rest => insertByKey key c (sortedByKey key rest)

/-- The deck sorted with the spades-high key. -/
def sortedDeck : List Card := sortedByKey spades_high FrenchDeck.deck

/-! ## N-dimensional Vector hashing
(`12.Special Methods for Sequences.py`, `Vector4.__hash__` lines 166-168 and
Take #5 `__hash__` lines 214-216 — the two bodies are identical). -/

/-- CPython's hash of a nonnegative integer: `n % (2**61 - 1)` (the Mersenne
modulus of `pyhash`). The hash of a float with integral value equals the hash
of that integer, so integral-valued vector components hash this way. -/
def pyHashNat (n : Nat) : Nat := n % (2 ^ 61 - 1)

namespace Vector

/-- `__hash__`: `hashes = (hash(x) for x in self._components)` then
`functools.reduce(operator.xor, hashes, 0)` — the XOR fold of the
per-component hashes, seeded at 0. Components are modelled as nonnegative
integral values (the claims' instances are the integral components 1 and 2). -/
def hash (components : List Nat) : Nat :=
  (components.map pyHashNat).foldl (fun acc h => acc ^^^ h) 0

end Vector

/-! ## Strategy-pattern order/discount demos
(`10.Design Patterns with First-Class Functions.py`). The NamedTuple `Order`
(lines 31-48) and the frozen-dataclass `Order` (lines 114-133) have the same
fields and the same `total`/`due` bodies, so one embedding serves both; the
promotion slot — `promotion.discount(self)` for the strategy objects,
`promotion(self)` for the bare/registered functions — is an optional function
argument of `due`. -/

/-- `class Customer(NamedTuple): name: str; fidelity: int`. -/
structure Customer where
  name : String
  fidelity : Nat
deriving DecidableEq, Repr

/-- `class LineItem(NamedTuple): product: str; quantity: int; price: Decimal`. -/
structure LineItem where
  product : String
  quantity : Nat
  price : Rat
deriving DecidableEq, Repr

/-- `LineItem.total`: `self.price * self.quantity`. -/
def LineItem.total (item : LineItem) : Rat := item.price * item.quantity

/-- The order aggregate: customer plus cart. -/
structure Order where
  customer : Customer
  cart : List LineItem

/-- `Order.total`: `sum((item.total() for item in self.cart), start=Decimal(0))`. -/
def Order.total (o : Order) : Rat := (o.cart.map LineItem.total).foldl (· + ·) 0

/-- `Order.due`: `total - discount` where the discount is 0 without a
promotion, else the promotion applied to the order. -/
def Order.due (o : Order) (promotion : Option (Order → Rat)) : Rat :=
  o.total - (match promotion with
             | none => 0
             | some p => p o)

namespace FidelityPromo

/-- `FidelityPromo.discount` (lines 54-60): 5% of the total when
`customer.fidelity >= 1000`, else 0. -/
def discount (order : Order) : Rat :=
  let rate : Rat := 5 / 100
  if order.customer.fidelity ≥ 1000 then order.total * rate else 0

end FidelityPromo

namespace BulkItemPromo

/-- `BulkItemPromo.discount` (lines 62-69): 10% of each line item with 20 or
more units, summed. -/
def discount (order : Order) : Rat :=
  order.cart.foldl
    (fun discount item =>
      if item.quantity ≥ 20 then discount + item.total * (1 / 10) else discount) 0

end BulkItemPromo

namespace LargeOrderPromo

/-- `LargeOrderPromo.discount` (lines 71-77): 7% of the total when the cart
holds 10 or more distinct products (`{item.product for item in order.cart}`). -/
def discount (order : Order) : Rat :=
  let distinct_items := (order.cart.map LineItem.product).dedup
  if distinct_items.length ≥ 10 then order.total * (7 / 100) else 0

end LargeOrderPromo

/-- `fidelity_promo` (lines 135-139), the bare-function strategy. -/
def fidelity_promo (order : Order) : Rat :=
  if order.customer.fidelity ≥ 1000 then order.total * (5 / 100) else 0

/-- `bulk_item_promo` (lines 141-147), the bare-function strategy. -/
def bulk_item_promo (order : Order) : Rat :=
  order.cart.foldl
    (fun discount item =>
      if item.quantity ≥ 20 then discount + item.total * (1 / 10) else discount) 0

/-- `large_order_promo` (lines 149-154), the bare-function strategy. -/
def large_order_promo (order : Order) : Rat :=
  let distinct_items := (order.cart.map LineItem.product).dedup
  if distinct_items.length ≥ 10 then order.total * (7 / 100) else 0

/-- `@promotion def fidelity` (lines 207-212), the registry-registered strategy. -/
def fidelity (order : Order) : Rat :=
  if order.customer.fidelity ≥ 1000 then order.total * (5 / 100) else 0

/-- `@promotion def bulk_item` (lines 214-221). -/
def bulk_item (order : Order) : Rat :=
  order.cart.foldl
    (fun discount item =>
      if item.quantity ≥ 20 then discount + item.total * (1 / 10) else discount) 0

/-- `@promotion def large_order` (lines 223-229). -/
def large_order (order : Order) : Rat :=
  let distinct_items := (order.cart.map LineItem.product).dedup
  if distinct_items.length ≥ 10 then order.total * (7 / 100) else 0

/-- `promos` after the three `@promotion` registrations ran in definition
order (lines 197-229). -/
def promos : List (Order → Rat) := [fidelity, bulk_item, large_order]

/-- `best_promo` (lines 203-205): `max(promo(order) for promo in promos)`.
Python's `max` starts from the first value and replaces the candidate when
`candidate < current`; `promos` holds the three registered promotions, so the
empty-iterable ValueError branch is unreachable (kept as the 0 default arm). -/
def best_promo (order : Order) : Rat :=
  match promos.map (fun promo => promo order) with
  | [] => 0
  | c :: rest => rest.foldl (fun candidate current =>
      if candidate < current then current else candidate) c

/-! ## The custom `max` reimplementation
(`15.More About Type Hints.py`, lines 39-66). Its two call forms — several
positional candidates, or one iterable — are embedded separately; each form
comes with and without the optional key-extraction function. Comparison uses
strict less-than only, as in the source. -/

/-- `EMPTY_MSG = "max() arg is an empty sequence"`. -/
def EMPTY_MSG : String := "max() arg is an empty sequence"

/-- The `key is None` loop (lines 55-58): replace the candidate whenever
`candidate < current`. -/
def maxLoopNoKey {α : Type} [LinearOrder α] (candidate : α) (series : List α) : α :=
  series.foldl (fun candidate current =>
    if candidate < current then current else candidate) candidate

/-- The keyed loop (lines 59-65): carry `(candidate, candidate_key)` and
replace both whenever `candidate_key < current_key`. -/
def maxLoopKey {α β : Type} [LinearOrder β] (key : α → β)
    (candidate : α) (series : List α) : α × β :=
  series.foldl
    (fun acc current =>
      let current_key := key current
      if acc.2 < current_key then (current, current_key) else acc)
    (candidate, key candidate)

/-- `max(iterable, default=...)` with `key=None` (lines 43-58, iterable form:
`args` empty): an empty iterable returns the default if one was given and
raises `ValueError(EMPTY_MSG)` otherwise; else the first element seeds the
less-than loop. -/
def pyMaxSeq {α : Type} [LinearOrder α] (first : List α) (default : Option α) :
    Except PyErr α :=
  match first with
  | [] =>
    match default with
    | some d => .ok d
    | none => .error (.valueError EMPTY_MSG)
  | candidate :: series => .ok (maxLoopNoKey candidate series)

/-- `max(iterable, key=key, default=...)` (lines 43-54 and 59-66, iterable
form with a key function). -/
def pyMaxSeqKey {α β : Type} [LinearOrder β] (key : α → β)
    (first : List α) (default : Option α) : Except PyErr α :=
  match first with
  | [] =>
    match default with
    | some d => .ok d
    | none => .error (.valueError EMPTY_MSG)
  | candidate :: series => .ok (maxLoopKey key candidate series).1

/-- `max(first, *args)` with at least two positional candidates (lines 44-46:
`series = args; candidate = first`), `key=None`. -/
def pyMaxArgs {α : Type} [LinearOrder α] (first : α) (args : List α) : α :=
  maxLoopNoKey first args

/-! ## Tombola implementations
(`13.Interfaces, Protocols, and ABCs.py`, lines 138-239). The Tombola ABC's
`pick` contract: "This method should raise LookupError when the instance is
empty." `random.shuffle` is a parameter assumed to permute its input; the
position `random.randrange(len(...))` draws is an explicit argument, reduced
modulo the length (randrange itself raises ValueError on an empty range, which
`pick` catches and converts to LookupError). -/

/-- `list.pop()` with no argument: remove and return the LAST element;
an empty list raises IndexError. -/
def listPop {α : Type} (l : List α) : Option (α × List α) :=
  match l.getLast? with
  | some item => some (item, l.dropLast)
  | none => none

namespace BingoCage13

/-- `BingoCage.__init__` (lines 182-185): `self._items = []` then
`self.load(items)`. -/
def init {α : Type} (shuffle : List α → List α) (items : List α) : List α :=
  load shuffle [] items
where
  /-- `BingoCage.load` (lines 187-189): `self._items.extend(items)` then
  `self._randomizer.shuffle(self._items)`. -/
  load (shuffle : List α → List α) (s items : List α) : List α := shuffle (s ++ items)

/-- `BingoCage.pick` (lines 191-195): `self._items.pop()`, converting
IndexError to `LookupError('pick from empty BingoCage')`. -/
def pick {α : Type} (s : List α) : Except PyErr (α × List α) :=
  match listPop s with
  | some r => .ok r
  | none => .error (.lookupError "pick from empty BingoCage")

/-- `BingoCage.__call__` (lines 197-198): `self.pick()` — the picked item is
discarded, the call returns None (`Option.none`). -/
def call {α : Type} (s : List α) : Except PyErr (Option α × List α) :=
  (pick s).map (fun r => (none, r.2))

end BingoCage13

namespace BingoCage7

/-- `BingoCage.__init__` of `7.Functions as First-Class Obj.py` (lines 38-40):
`self._items = list(items)` then `random.shuffle(self._items)`. -/
def init {α : Type} (shuffle : List α → List α) (items : List α) : List α :=
  shuffle items

/-- `BingoCage.pick` (lines 42-46): same body as the chapter-13 version. -/
def pick {α : Type} (s : List α) : Except PyErr (α × List α) :=
  match listPop s with
  | some r => .ok r
  | none => .error (.lookupError "pick from empty BingoCage")

/-- `BingoCage.__call__` (lines 48-49): `return self.pick()` — the picked item
IS returned. -/
def call {α : Type} (s : List α) : Except PyErr (Option α × List α) :=
  (pick s).map (fun r => (some r.1, r.2))

end BingoCage7

/-- `LottoBlower` instance state: `balls = none` models an object whose
`_balls` attribute was never assigned (reading it raises AttributeError). -/
structure LottoBlower (α : Type) where
  balls : Option (List α)
deriving DecidableEq, Repr

namespace LottoBlower

/-- `LottoBlower.__init__` (lines 202-203): `self_balls = list(iterable)` —
the underscore is missing after `self`, so the statement binds a LOCAL
variable and the instance attribute `_balls` is never created. -/
def init {α : Type} (iterable : List α) : LottoBlower α :=
  let self_balls := iterable
  let _ := self_balls
  { balls := none }

/-- `LottoBlower.load` (lines 205-206): `self._balls.extend(iterable)`;
reading the absent `_balls` raises AttributeError. -/
def load {α : Type} (s : LottoBlower α) (iterable : List α) :
    Except PyErr (LottoBlower α) :=
  match s.balls with
  | none => .error (.attributeError "_balls")
  | some bs => .ok { balls := some (bs ++ iterable) }

/-- `LottoBlower.pick` (lines 208-213): draw `position =
random.randrange(len(self._balls))` — ValueError on an empty range, caught and
re-raised as `LookupError('pick from empty LottoBlower')` — then
`self._balls.pop(position)`. The drawn position is the `pos` argument reduced
modulo the length (randrange always yields a position below the length, so the
`getD` fallback is never consulted). -/
def pick {α : Type} (s : LottoBlower α) (pos : Nat) :
    Except PyErr (α × LottoBlower α) :=
  match s.balls with
  | none => .error (.attributeError "_balls")
  | some [] => .error (.lookupError "pick from empty LottoBlower")
  | some (b :: rest) =>
    let position := pos % (b :: rest).length
    .ok ((b :: rest).getD position b, { balls := some ((b :: rest).eraseIdx position) })

/-- `LottoBlower.loaded` (lines 215-216): `bool(self._balls)`. -/
def loaded {α : Type} (s : LottoBlower α) : Except PyErr Bool :=
  match s.balls with
  | none => .error (.attributeError "_balls")
  | some bs => .ok (!bs.isEmpty)

/-- `LottoBlower.inspect` (lines 218-219): `tuple(self._balls)`. -/
def inspect {α : Type} (s : LottoBlower α) : Except PyErr (List α) :=
  match s.balls with
  | none => .error (.attributeError "_balls")
  | some bs => .ok bs

end LottoBlower

namespace TomboList

/-- `TomboList.pick` (lines 226-231): when the list is truthy, pop a random
position; an empty TomboList raises `LookupError('pop from empty TomboList')`. -/
def pick {α : Type} (s : List α) (pos : Nat) : Except PyErr (α × List α) :=
  match s with
  | [] => .error (.lookupError "pop from empty TomboList")
  | b :: rest =>
    let position := pos % (b :: rest).length
    .ok ((b :: rest).getD position b, (b :: rest).eraseIdx position)

end TomboList

/-! ## Vector Take #5 formatting
(`12.Special Methods for Sequences.py`, lines 189-269). The final Vector's
`__abs__` (lines 218-219) is `return bool(abs(self))`: `abs(self)` invokes
`__abs__` itself, so the call never terminates (CPython raises RecursionError
at the recursion limit). Modelled with explicit fuel: one unit per nested
call; running out of fuel is the recursion limit. Were `abs` ever to return,
`__format__`'s hyperspherical branch (lines 258-264) would next evaluate
`self.angle()` — the angle method requires the positional argument `n` (the
generator of all angles is `angles()`), so that call raises TypeError. -/

namespace VectorTake5

/-- `__abs__` (lines 218-219): `return bool(abs(self))`, where `abs(self)`
re-enters `__abs__`; `bool` of the (never produced) result is the identity on
a boolean value. -/
def absSelf {α : Type} (components : List α) : Nat → Except PyErr Bool
  | 0 => .error .recursionError
  | fuel + 1 => (absSelf components fuel).map (fun b => b)

/-- `__format__` with a spec ending in 'h' (lines 258-264): builds
`itertools.chain([abs(self)], self.angle())`. The first coordinate,
`abs(self)`, is evaluated first and diverges; the subsequent `self.angle()`
call — missing its required argument `n` — would raise TypeError. -/
def formatHyper {α : Type} (components : List α) (fuel : Nat) : Except PyErr String :=
  (absSelf components fuel).bind (fun _ =>
    .error (.typeError "angle() missing 1 required positional argument: 'n'"))

end VectorTake5

/-! ## LastUpdatedOrderedDict
(`14.Inheritance, For Better or for Worse.py`, lines 12-21). An OrderedDict is
the association list of its items in iteration order. -/

namespace OrderedDictM

/-- `OrderedDict.__setitem__`: updating an existing key keeps its position in
the iteration order; a new key is appended at the end. -/
def setitem (d : List (String × Int)) (k : String) (v : Int) : List (String × Int) :=
  if d.any (fun p => p.1 == k) then
    d.map (fun p => if p.1 == k then (k, v) else p)
  else
    d ++ [(k, v)]

/-- `LastUpdatedOrderedDict.__setitem__` (lines 19-21):
`super().__setitem__(key, value)` inserts/updates the pair, then
`self.move_to_end()` is called WITHOUT the required `key` argument, so CPython
raises `TypeError: move_to_end() missing required argument: 'key'`. The pair
stays stored (the super call already mutated the dict) but no key is moved;
the result is the mutated dict together with the raised error. -/
def luSetitem (d : List (String × Int)) (k : String) (v : Int) :
    List (String × Int) × Option PyErr :=
  (setitem d k v,
    some (.typeError "move_to_end() missing required argument: 'key'"))

end OrderedDictM

/-! ## Bus aliasing demos
(`6.Object References, Mutability, and Recycling.py`, lines 17-28 and 47-74).
Python object identity is modelled by a heap of passenger lists addressed by
allocation index; a bus holds the address of its passenger list. -/

/-- A heap of passenger lists; an address is the index at which the list was
allocated. -/
structure Heap where
  cells : List (List String)
deriving DecidableEq, Repr

/-- Allocate a fresh list object, returning the extended heap and the new
object's address. -/
def Heap.alloc (h : Heap) (l : List String) : Heap × Nat :=
  ({ cells := h.cells ++ [l] }, h.cells.length)

/-- Read the list stored at an address. -/
def Heap.get (h : Heap) (r : Nat) : List String := h.cells.getD r []

/-- `list.append(x)` on the list stored at an address: in-place mutation,
visible through every alias of that address. -/
def Heap.push (h : Heap) (r : Nat) (x : String) : Heap :=
  { cells := h.cells.set r (h.cells.getD r [] ++ [x]) }

namespace HauntedBus

/-- `def __init__(self, passengers=[])` (line 48): the default list `[]` is
allocated ONCE, when the `def` statement executes. -/
def defaultAlloc (h : Heap) : Heap × Nat := h.alloc []

/-- `self.passengers = passengers` (line 49): no copy — a no-argument
construction binds the shared default list's address. -/
def init (defaultRef : Nat) (passengers : Option Nat) : Nat :=
  passengers.getD defaultRef

/-- `HauntedBus.pick` (lines 51-52): `self.passengers.append(name)`. -/
def pick (h : Heap) (bus : Nat) (name : String) : Heap := h.push bus name

end HauntedBus

namespace Bus

/-- `Bus.__init__` (lines 18-22): the `None` sentinel pattern — without an
argument a FRESH empty list is created; with one, `list(passengers)` copies
it into a fresh list. -/
def init (h : Heap) (passengers : Option (List String)) : Heap × Nat :=
  match passengers with
  | none => h.alloc []
  | some ps => h.alloc ps

/-- `Bus.pick` (lines 24-25): `self.passengers.append(name)`. -/
def pick (h : Heap) (bus : Nat) (name : String) : Heap := h.push bus name

end Bus

/-- The chapter's HauntedBus scenario (lines 64-74): two no-argument
constructions, then each bus picks one passenger; returns both buses'
passenger lists. -/
def hauntedScenario (p1 p2 : String) : List String × List String :=
  let (h0, d) := HauntedBus.defaultAlloc { cells := [] }
  let bus2 := HauntedBus.init d none
  let bus3 := HauntedBus.init d none
  let h1 := HauntedBus.pick h0 bus2 p1
  let h2 := HauntedBus.pick h1 bus3 p2
  (h2.get bus2, h2.get bus3)

/-- The same scenario with the fixed `Bus` pattern: two no-argument
constructions, then each bus picks one passenger. -/
def busScenario (p1 p2 : String) : List String × List String :=
  let (h0, b1) := Bus.init { cells := [] } none
  let (h1, b2) := Bus.init h0 none
  let h2 := Bus.pick h1 b1 p1
  let h3 := Bus.pick h2 b2 p2
  (h3.get b1, h3.get b2)

/-!
## Theorems

The claims settled against the definitions above, one theorem per claim
(with counterexamples and concrete-input witnesses where needed).
-/

/-- C7: a fresh FrenchDeck has 52 cards, exactly one per (rank, suit) pair of
the 13×4 product; sorting by `spades_high` puts the 2 of clubs first and the
ace of spades last; the key is strictly increasing along the sorted deck, so
the `spades_high` ranking is a strict total order on the deck. -/
theorem frenchdeck_complete_spades_high_sorted :
    FrenchDeck.deck.length = 52 ∧
    FrenchDeck.ranks.length = 13 ∧
    FrenchDeck.suits.length = 4 ∧
    (∀ r ∈ FrenchDeck.ranks, ∀ s ∈ FrenchDeck.suits,
      FrenchDeck.deck.count ⟨r, s⟩ = 1) ∧
    sortedDeck.head? = some ⟨"2", "clubs"⟩ ∧
    sortedDeck.getLast? = some ⟨"A", "spades"⟩ ∧
    List.Pairwise (fun a b => spades_high a < spades_high b) sortedDeck := by
  decide

/-- Witness for C7: instantiating the bounded quantifiers at rank "2" and suit
"clubs". -/
theorem frenchdeck_complete_spades_high_sorted_witness :
    "2" ∈ FrenchDeck.ranks ∧ "clubs" ∈ FrenchDeck.suits ∧
    FrenchDeck.deck.count ⟨"2", "clubs"⟩ = 1 :=
  ⟨by decide, by decide,
    frenchdeck_complete_spades_high_sorted.2.2.2.1 "2" (by decide) "clubs" (by decide)⟩

/-- C1 counterexample: `hash(1) ≠ hash(2)`, yet the XOR-fold hashes of the
vector built from (1, 2) and the vector built from (2, 1) are EQUAL — XOR is
commutative, so reordering components can never change the fold. -/
theorem vector_hash_reorder_counterexample :
    pyHashNat 1 ≠ pyHashNat 2 ∧ Vector.hash [1, 2] = Vector.hash [2, 1] := by
  decide

/-- C1 (amended): the XOR-fold hash is invariant under re-construction from
the same ordered components and under EVERY reordering of the components:
XOR is commutative and associative, so any permutation yields the same hash.
In particular vector(1,2) and vector(2,1) always hash equal. -/
theorem vector_hash_perm_invariant (l l' : List Nat) (h : l.Perm l') :
    Vector.hash l = Vector.hash l' := by
  haveI : RightCommutative (fun (acc h : Nat) => acc ^^^ h) :=
    ⟨fun b a₁ a₂ => by simp [Nat.xor_assoc, Nat.xor_comm a₁ a₂]⟩
  exact (h.map pyHashNat).foldl_eq 0

/-- Witness for C1's amended theorem at the permutation (1,2) ~ (2,1). -/
theorem vector_hash_perm_invariant_witness :
    ([1, 2] : List Nat).Perm [2, 1] ∧ Vector.hash [1, 2] = Vector.hash [2, 1] :=
  ⟨by decide, vector_hash_perm_invariant [1, 2] [2, 1] (by decide)⟩

/-- Python max's comparison step `if candidate < current: candidate = current`
computes the lattice max. -/
theorem pyMaxStep_eq_max (a b : Rat) : (if a < b then b else a) = max a b := by
  split
  · exact (max_eq_right (le_of_lt (by assumption))).symm
  · exact (max_eq_left (le_of_not_lt (by assumption))).symm

/-- C2: for every customer and cart, the class-based strategy, the bare
discount function and the registry-registered function of the same named
policy compute identical discounts and identical `due()` values, and
`best_promo` is exactly the maximum of the three registered policies'
outputs on that order. -/
theorem promotion_styles_equivalent (o : Order) :
    (FidelityPromo.discount o = fidelity_promo o ∧ fidelity_promo o = fidelity o) ∧
    (BulkItemPromo.discount o = bulk_item_promo o ∧ bulk_item_promo o = bulk_item o) ∧
    (LargeOrderPromo.discount o = large_order_promo o ∧ large_order_promo o = large_order o) ∧
    (o.due (some FidelityPromo.discount) = o.due (some fidelity_promo) ∧
      o.due (some fidelity_promo) = o.due (some fidelity)) ∧
    (o.due (some BulkItemPromo.discount) = o.due (some bulk_item_promo) ∧
      o.due (some bulk_item_promo) = o.due (some bulk_item)) ∧
    (o.due (some LargeOrderPromo.discount) = o.due (some large_order_promo) ∧
      o.due (some large_order_promo) = o.due (some large_order)) ∧
    best_promo o = max (fidelity o) (max (bulk_item o) (large_order o)) := by
  refine ⟨⟨rfl, rfl⟩, ⟨rfl, rfl⟩, ⟨rfl, rfl⟩, ⟨rfl, rfl⟩, ⟨rfl, rfl⟩, ⟨rfl, rfl⟩, ?_⟩
  show (if (if fidelity o < bulk_item o then bulk_item o else fidelity o) < large_order o
        then large_order o
        else if fidelity o < bulk_item o then bulk_item o else fidelity o) = _
  rw [pyMaxStep_eq_max, pyMaxStep_eq_max, max_assoc]

theorem maxLoopNoKey_spec {α : Type} [LinearOrder α] (candidate : α) (series : List α) :
    maxLoopNoKey candidate series ∈ candidate :: series ∧
    ∀ y ∈ candidate :: series, y ≤ maxLoopNoKey candidate series := by
  induction series generalizing candidate with
  | nil => exact ⟨List.mem_singleton.2 rfl, by simp [maxLoopNoKey]⟩
  | cons a rest ih =>
    have step : maxLoopNoKey candidate (a :: rest) =
        maxLoopNoKey (if candidate < a then a else candidate) rest := rfl
    rcases ih (if candidate < a then a else candidate) with ⟨hmem, hge⟩
    constructor
    · rw [step]
      rcases List.mem_cons.1 hmem with h | h
      · rw [h]
        split
        · exact List.mem_cons_of_mem _ (List.mem_cons_self a rest)
        · exact List.mem_cons_self _ _
      · exact List.mem_cons_of_mem _ (List.mem_cons_of_mem a h)
    · intro y hy
      rw [step]
      rcases List.mem_cons.1 hy with h | h
      · subst h
        calc y ≤ (if y < a then a else y) := by
              split
              · exact le_of_lt (by assumption)
              · exact le_refl y
          _ ≤ _ := hge _ (List.mem_cons_self _ _)
      · rcases List.mem_cons.1 h with h' | h'
        · subst h'
          calc y ≤ (if candidate < y then y else candidate) := by
                split
                · exact le_refl y
                · exact le_of_not_lt (by assumption)
            _ ≤ _ := hge _ (List.mem_cons_self _ _)
        · exact hge y (List.mem_cons_of_mem _ h')

theorem maxLoopKey_spec {α β : Type} [LinearOrder β] (key : α → β)
    (candidate : α) (series : List α) :
    (maxLoopKey key candidate series).2 = key (maxLoopKey key candidate series).1 ∧
    (maxLoopKey key candidate series).1 ∈ candidate :: series ∧
    ∀ y ∈ candidate :: series, key y ≤ (maxLoopKey key candidate series).2 := by
  induction series generalizing candidate with
  | nil => exact ⟨rfl, List.mem_singleton.2 rfl, by simp [maxLoopKey]⟩
  | cons a rest ih =>
    have step : maxLoopKey key candidate (a :: rest) =
        maxLoopKey key (if key candidate < key a then a else candidate) rest := by
      show List.foldl _ (if key candidate < key a then (a, key a) else (candidate, key candidate)) rest = _
      split
      · rfl
      · rfl
    rcases ih (if key candidate < key a then a else candidate) with ⟨hkey, hmem, hge⟩
    refine ⟨by rw [step]; exact hkey, ?_, ?_⟩
    · rw [step]
      rcases List.mem_cons.1 hmem with h | h
      · rw [h]
        split
        · exact List.mem_cons_of_mem _ (List.mem_cons_self a rest)
        · exact List.mem_cons_self _ _
      · exact List.mem_cons_of_mem _ (List.mem_cons_of_mem a h)
    · intro y hy
      rw [step]
      rcases List.mem_cons.1 hy with h | h
      · subst h
        calc key y ≤ key (if key y < key a then a else y) := by
              split
              · exact le_of_lt (by assumption)
              · exact le_refl _
          _ ≤ _ := hge _ (List.mem_cons_self _ _)
      · rcases List.mem_cons.1 h with h' | h'
        · subst h'
          calc key y ≤ key (if key candidate < key y then y else candidate) := by
                split
                · exact le_refl _
                · exact le_of_not_lt (by assumption)
            _ ≤ _ := hge _ (List.mem_cons_self _ _)
        · exact hge y (List.mem_cons_of_mem _ h')

/-- C9: the custom `max` raises `ValueError("max() arg is an empty sequence")`
on an empty iterable without a default, returns the default on an empty
iterable with one, and on every input — iterable or positional, keyed or
not — returns a candidate of the input attaining the maximum (no element,
resp. no element's key, exceeds it), all candidate comparisons being made
with strict less-than only. -/
theorem pymax_spec {α β : Type} [LinearOrder α] [LinearOrder β] (key : α → β)
    (d x : α) (xs : List α) :
    (pyMaxSeq ([] : List α) none = .error (.valueError EMPTY_MSG)) ∧
    (pyMaxSeqKey key ([] : List α) none = .error (.valueError EMPTY_MSG)) ∧
    (pyMaxSeq ([] : List α) (some d) = .ok d) ∧
    (pyMaxSeqKey key ([] : List α) (some d) = .ok d) ∧
    (∃ m, pyMaxSeq (x :: xs) none = .ok m ∧ m ∈ x :: xs ∧ ∀ y ∈ x :: xs, y ≤ m) ∧
    (∃ m, pyMaxSeqKey key (x :: xs) none = .ok m ∧ m ∈ x :: xs ∧
      ∀ y ∈ x :: xs, key y ≤ key m) ∧
    (pyMaxArgs x xs ∈ x :: xs ∧ ∀ y ∈ x :: xs, y ≤ pyMaxArgs x xs) := by
  refine ⟨rfl, rfl, rfl, rfl, ?_, ?_, maxLoopNoKey_spec x xs⟩
  · rcases maxLoopNoKey_spec x xs with ⟨hmem, hge⟩
    exact ⟨maxLoopNoKey x xs, rfl, hmem, hge⟩
  · rcases maxLoopKey_spec key x xs with ⟨hkey, hmem, hge⟩
    refine ⟨(maxLoopKey key x xs).1, rfl, hmem, ?_⟩
    intro y hy
    rw [← hkey]
    exact hge y hy

/-- C3 (code evaluated at the failing input): the BingoCage and TomboList
implementations do raise the exhausted-container LookupError on an empty bag,
but a freshly constructed LottoBlower — its `__init__` having bound the balls
to the local `self_balls` instead of `self._balls` — raises AttributeError
from `pick`, an error kind distinct from LookupError, so the claim fails on
LottoBlower. -/
theorem tombola_empty_pick_evaluated :
    BingoCage13.pick ([] : List Nat) =
      .error (.lookupError "pick from empty BingoCage") ∧
    BingoCage7.pick ([] : List Nat) =
      .error (.lookupError "pick from empty BingoCage") ∧
    TomboList.pick ([] : List Nat) 0 =
      .error (.lookupError "pop from empty TomboList") ∧
    (LottoBlower.init ([] : List Nat)).pick 0 = .error (.attributeError "_balls") ∧
    ((LottoBlower.init ([] : List Nat)).pick 0 ≠
      .error (.lookupError "pick from empty LottoBlower")) := by
  refine ⟨rfl, rfl, rfl, rfl, ?_⟩
  intro h
  simp [LottoBlower.init, LottoBlower.pick] at h

/-- C10: `LottoBlower.__init__` never creates the instance's ball store, so
for every constructor argument the fresh instance holds no items and each
public operation — load, pick, loaded, inspect — fails with AttributeError
before reaching its intended logic. -/
theorem lottoblower_init_never_stores {α : Type} (iterable other : List α) (pos : Nat) :
    (LottoBlower.init iterable).balls = none ∧
    (LottoBlower.init iterable).load other = .error (.attributeError "_balls") ∧
    (LottoBlower.init iterable).pick pos = .error (.attributeError "_balls") ∧
    (LottoBlower.init iterable).loaded = .error (.attributeError "_balls") ∧
    (LottoBlower.init iterable).inspect = .error (.attributeError "_balls") :=
  ⟨rfl, rfl, rfl, rfl, rfl⟩

/-- C6 counterexample: the chapter-13 `BingoCage.__call__` body is
`self.pick()` without `return`. Invoking the callable on a cage holding
exactly the item 5 does remove the item (the bag empties) but the call
returns None — not the removed item 5 — so "each invocation ... returns that
item" fails on this cited implementation. -/
theorem bingocage13_call_returns_none :
    BingoCage13.call ([5] : List Nat) = .ok (none, []) ∧
    ∀ a : Nat, (Except.ok (none, ([] : List Nat)) :
      Except PyErr (Option Nat × List Nat)) ≠ .ok (some a, []) := by
  refine ⟨rfl, ?_⟩
  intro a h
  simp at h

/-- C6 (amended): for any shuffle that permutes its input, construction of
either BingoCage leaves the bag a shuffled copy of the input; each invocation
of the callable removes exactly one item — the last of the shuffled bag — and
the chapter-7 cage returns that item while the chapter-13 cage returns None
(its `__call__` discards `pick`'s result); invoking either callable on an
exhausted cage raises `LookupError('pick from empty BingoCage')`. -/
theorem bingocage_call_behavior (shuffle : List Nat → List Nat)
    (hs : ∀ l, (shuffle l).Perm l) (items s : List Nat) (a : Nat) :
    (BingoCage7.init shuffle items).Perm items ∧
    (BingoCage13.init shuffle items).Perm items ∧
    BingoCage7.call (s ++ [a]) = .ok (some a, s) ∧
    BingoCage13.call (s ++ [a]) = .ok (none, s) ∧
    BingoCage7.call ([] : List Nat) =
      .error (.lookupError "pick from empty BingoCage") ∧
    BingoCage13.call ([] : List Nat) =
      .error (.lookupError "pick from empty BingoCage") := by
  refine ⟨hs items, by simpa using hs ([] ++ items), ?_, ?_, rfl, rfl⟩
  · simp [BingoCage7.call, BingoCage7.pick, listPop, Except.map]
  · simp [BingoCage13.call, BingoCage13.pick, listPop, Except.map]

/-- Witness for C6's amended theorem: shuffle = reverse (a permutation),
input [1, 2], bag state [7, 9]. -/
theorem bingocage_call_behavior_witness :
    (BingoCage7.init List.reverse [1, 2]).Perm [1, 2] ∧
    BingoCage7.call ([7, 9] : List Nat) = .ok (some 9, [7]) ∧
    BingoCage13.call ([7, 9] : List Nat) = .ok (none, [7]) :=
  have h := bingocage_call_behavior List.reverse (fun l => l.reverse_perm) [1, 2] [7] 9
  ⟨h.1, h.2.2.1, h.2.2.2.1⟩

/-- C4 (code evaluated at the failing input): for every component list and
every recursion budget, `abs` of the final Vector ends in RecursionError —
it never equals the Euclidean norm — and therefore formatting with a spec
ending in 'h' also ends in RecursionError instead of rendering the
hyperspherical form. -/
theorem vector_take5_format_h_diverges {α : Type} (components : List α) (fuel : Nat) :
    VectorTake5.absSelf components fuel = .error .recursionError ∧
    VectorTake5.formatHyper components fuel = .error .recursionError := by
  induction fuel with
  | zero => exact ⟨rfl, rfl⟩
  | succ n ih =>
    have habs : VectorTake5.absSelf components (n + 1) = .error .recursionError := by
      show (VectorTake5.absSelf components n).map (fun b => b) = _
      rw [ih.1]
      rfl
    exact ⟨habs, by show (VectorTake5.absSelf components (n + 1)).bind _ = _; rw [habs]; rfl⟩

/-- C5 (code evaluated at the failing input): assigning to the existing key
"a" of a LastUpdatedOrderedDict holding [("a", 1), ("b", 2)] stores the new
value but raises TypeError — `move_to_end` is called without its required key
argument — and "a", the most recently assigned key, does NOT iterate last. -/
theorem lastupdated_setitem_raises :
    OrderedDictM.luSetitem [("a", 1), ("b", 2)] "a" 10 =
      ([("a", 10), ("b", 2)],
        some (.typeError "move_to_end() missing required argument: 'key'")) ∧
    ((([("a", 10), ("b", 2)] : List (String × Int)).map Prod.fst).getLast? ≠ some "a") := by
  refine ⟨rfl, ?_⟩
  intro h
  simp at h

/-- C8: two HauntedBus instances constructed without a passenger list share
the one default list, so after each picks one distinct passenger BOTH
passengers are visible on BOTH buses; two Bus instances (None sentinel plus
fresh/copied list) each end up holding only the passenger they themselves
picked. -/
theorem bus_default_list_aliasing (p1 p2 : String) (hne : p1 ≠ p2) :
    hauntedScenario p1 p2 = ([p1, p2], [p1, p2]) ∧
    busScenario p1 p2 = ([p1], [p2]) := by
  exact ⟨rfl, rfl⟩

/-- Witness for C8 at the chapter's passengers Carrie and Dave. -/
theorem bus_default_list_aliasing_witness :
    ("Carrie" : String) ≠ "Dave" ∧
    hauntedScenario "Carrie" "Dave" = (["Carrie", "Dave"], ["Carrie", "Dave"]) ∧
    busScenario "Carrie" "Dave" = (["Carrie"], ["Dave"]) :=
  ⟨by decide, (bus_default_list_aliasing "Carrie" "Dave" (by decide)).1,
    (bus_default_list_aliasing "Carrie" "Dave" (by decide)).2⟩
